import Mathlib

/-!
# Lazy symbol resolution and the raw cudaMalloc allocator

A shallow embedding of

* `tensorflow/core/common_runtime/gpu/gpu_cudamalloc_allocator.cc`
  (the `dyload` shims for `cuMemAlloc` / `cuMemFree` and `GPUcudaMallocAllocator`),
* `tensorflow/stream_executor/cuda/cuda_driver_wrapper.h`
  (`wrap::STREAM_EXECUTOR_LIBCUDA_WRAP` over the driver entry points),
* `tensorflow/stream_executor/cuda/cuda_runtime_wrapper.h`
  (`wrap::STREAM_EXECUTOR_LIBCUDART_WRAP` over the runtime entry points).

The program is effectful C++.  It is embedded as state passing over a `World`
(the calling thread's active context, the function-local statics that have been
initialised so far, and the ordered record of every externally visible action),
with `Outcome` separating a normal return from process termination by a failed
`CHECK` / `ValueOrDie`.  Everything outside the three files (the dynamic loader,
the vendor library, the device-management layer) is a parameter: a `Native` test
double whose answers may depend on the whole history of the run.

Pointers, handles, `size_t` and `CUdeviceptr` values are natural numbers; the code
performs no arithmetic on them, and on the 64-bit targets of this code
`reinterpret_cast` between `CUdeviceptr` and `void*` keeps the value.
-/

namespace tensorflow

/-! ## Values -/

/-- A `CUresult` status code of the driver API. -/
abbrev CUresult := Nat

/-- The status code `CUDA_SUCCESS` of `cuda.h`. -/
def CUDA_SUCCESS : CUresult := 0

/-- A device address, `CUdeviceptr`. -/
abbrev CUdeviceptr := Nat

/-- A host `void*`. -/
abbrev VoidPtr := Nat

/-- The null pointer. -/
def nullptr : VoidPtr := 0

/-- A driver execution context as seen by a thread (0 stands for "no context"). -/
abbrev CUcontext := Nat

/-- A shared-library handle returned by the DSO loader. -/
abbrev DsoHandle := Nat

/-- The address of native code, `FuncPtrT` after `reinterpret_cast`. -/
abbrev FuncAddr := Nat

/-- An `Allocator*` identity. -/
abbrev AllocatorRef := Nat

/-- The C types that occur as deduced template arguments `Args...` of a proxy call. -/
inductive CType where
  | int
  | unsignedInt
  | size_t
  | CUdeviceptr
  | voidPtr
  | ptrTo (t : CType)
  deriving DecidableEq, Repr

/-- One argument of a native call, passed by value as `Args... args` does. -/
inductive Arg where
  /-- A scalar or pointer value of type `ty`. -/
  | byValue (ty : CType) (v : Nat)
  /-- The address `&x` of a caller local `x` of type `ty` that currently holds `init`. -/
  | addrOfLocal (ty : CType) (init : Nat)
  deriving DecidableEq, Repr

/-- The C type template deduction gives to an argument. -/
def Arg.ctype : Arg → CType
  | .byValue ty _ => ty
  | .addrOfLocal ty _ => .ptrTo ty

/-- What a native call hands back: its return value, and the value it stored through
the out-pointer argument when it stored one. -/
structure NativeReturn where
  ret : Nat
  stored : Option Nat
  deriving DecidableEq, Repr

/-- The code a proxy finally calls: the statically linked symbol `::name`, or whatever
lives at a resolved address. -/
inductive Target where
  | linked (name : String)
  | address (f : FuncAddr)
  deriving DecidableEq, Repr

/-- The result of `Env::GetSymbolFromLibrary(handle, name, &f)`: the status, its
message, and the value found in `f` afterwards. -/
structure SymbolLookup where
  ok : Bool
  f : FuncAddr
  error_message : String
  deriving DecidableEq, Repr

/-- The operations of the generic `Allocator` interface, for recording uses of a
backing allocator. -/
inductive AllocatorOp where
  | AllocateRaw
  | DeallocateRaw
  | other
  deriving DecidableEq, Repr

/-- Externally visible actions, in the order they happen. -/
inductive Event where
  /-- A call `Env::GetSymbolFromLibrary(handle, name, &f)`; `name = none` is a null
  `const char*`. -/
  | getSymbol (handle : DsoHandle) (name : Option String) (result : SymbolLookup)
  /-- A call of native code with the thread's active context at that moment. -/
  | nativeCall (target : Target) (ctx : CUcontext) (args : List Arg) (result : NativeReturn)
  /-- One `LOG(ERROR)` entry: the literal text and the streamed value. -/
  | logError (text : String) (value : Nat)
  /-- The `LOG(FATAL)` entry of a failed `CHECK` or `ValueOrDie`. -/
  | fatal (text : String) (name : Option String) (detail : String)
  /-- A virtual call on an `Allocator` object. -/
  | useAllocator (a : AllocatorRef) (op : AllocatorOp)
  /-- The expression `delete a` on a non-null `Allocator*`. -/
  | deleteAllocator (a : AllocatorRef)
  deriving DecidableEq, Repr

/-- Whether the event is a symbol lookup. -/
def Event.isGetSymbol : Event → Bool
  | .getSymbol _ _ _ => true
  | _ => false

/-- Whether the event is a call of native code. -/
def Event.isNativeCall : Event → Bool
  | .nativeCall _ _ _ _ => true
  | _ => false

/-- Whether the event is a `LOG(ERROR)` entry. -/
def Event.isLogError : Event → Bool
  | .logError _ _ => true
  | _ => false

/-- Whether the event belongs to symbol resolution: a lookup, or the fatal entry of a
failed check. -/
def Event.isResolution : Event → Bool
  | .getSymbol _ _ _ => true
  | .fatal _ _ _ => true
  | _ => false

/-- Whether the event is `delete b`. -/
def Event.isDeleteOf (b : AllocatorRef) : Event → Bool
  | .deleteAllocator a => a == b
  | _ => false

/-- Whether the event is a virtual call on `b`. -/
def Event.isUseOf (b : AllocatorRef) : Event → Bool
  | .useAllocator a _ => a == b
  | _ => false

/-! ## Build configuration and the environment -/

/-- The preprocessor symbols the three files branch on. -/
structure BuildConfig where
  /-- `#ifdef GOOGLE_CUDA`. -/
  GOOGLE_CUDA : Bool
  /-- `#ifdef PLATFORM_GOOGLE`: direct-link strategy instead of lazy-dynamic. -/
  PLATFORM_GOOGLE : Bool
  /-- `NDEBUG`: the logging macro `DCHECK(c)` is `CHECK(c)` without it and compiles to
  nothing with it. -/
  NDEBUG : Bool
  deriving DecidableEq, Repr

/-- A `StreamExecutor`, reduced to the context that activating it makes current. -/
structure StreamExecutor where
  context : CUcontext
  deriving DecidableEq, Repr

/-- The environment outside the three files, as a test double.  Each answer may depend
on the history of the run so far. -/
structure Native where
  /-- `CachedDsoLoader::GetLibcudaDsoHandle()`, a `StatusOr<void*>`. -/
  GetLibcudaDsoHandle : Option DsoHandle
  /-- `CachedDsoLoader::GetLibcudartDsoHandle()`, a `StatusOr<void*>`. -/
  GetLibcudartDsoHandle : Option DsoHandle
  /-- `Env::Default()->GetSymbolFromLibrary`. -/
  GetSymbolFromLibrary : List Event → DsoHandle → Option String → SymbolLookup
  /-- Running the native code at a target with the given active context and arguments. -/
  invoke : List Event → Target → CUcontext → List Arg → NativeReturn
  /-- `GpuIdUtil::ExecutorForPlatformGpuId`, a `StatusOr<StreamExecutor*>`. -/
  ExecutorForPlatformGpuId : Nat → Option StreamExecutor

/-- The function-local statics of the three files.  A static local of a function
template exists once per instantiation, so those of the two header wrappers are
indexed by the deduced argument types as well. -/
inductive StaticVar where
  /-- `f` in `dyload::DynLoadShim__name::DynLoad()` (not a template). -/
  | dyload_f (name : String)
  /-- `loaded` in `wrap::name<Args...>` of `cuda_driver_wrapper.h`. -/
  | cuda_loaded (name : String) (Args : List CType)
  /-- `loaded` in `wrap::name<Args...>` of `cuda_runtime_wrapper.h`. -/
  | cudart_loaded (name : String) (Args : List CType)
  deriving DecidableEq, Repr

/-- The state of the process as far as the three files can see or change it. -/
structure World where
  /-- The calling thread's active context. -/
  ctx : CUcontext
  /-- The statics initialised so far, with their values. -/
  statics : StaticVar → Option FuncAddr
  /-- Everything that happened so far, oldest first. -/
  trace : List Event

/-- Append an event to the record. -/
def World.emit (w : World) (e : Event) : World :=
  { w with trace := w.trace ++ [e] }

/-- Complete the initialisation of a static. -/
def World.setStatic (w : World) (k : StaticVar) (f : FuncAddr) : World :=
  { w with statics := fun k' => if k' = k then some f else w.statics k' }

/-- How a piece of the program ends: it returns a value, or the process is terminated. -/
inductive Outcome (α : Type) where
  | returned (v : α) (w : World)
  | aborted (w : World)

/-- Sequencing: a terminated process runs nothing further. -/
def Outcome.bind {α β : Type} (o : Outcome α) (k : α → World → Outcome β) : Outcome β :=
  match o with
  | .returned v w => k v w
  | .aborted w => .aborted w

/-- The world an outcome leaves behind. -/
def Outcome.world {α : Type} : Outcome α → World
  | .returned _ w => w
  | .aborted w => w

/-- Whether control came back to the caller. -/
def Outcome.completes {α : Type} : Outcome α → Bool
  | .returned _ _ => true
  | .aborted _ => false

/-- The value handed back, if control came back. -/
def Outcome.value? {α : Type} : Outcome α → Option α
  | .returned v _ => some v
  | .aborted _ => none

/-- The events a run added to the record of the world `w` it started in. -/
def Outcome.newEvents {α : Type} (o : Outcome α) (w : World) : List Event :=
  o.world.trace.drop w.trace.length

/-- Modelled from the spec: `StatusOr<T>::ValueOrDie()` (`statusor.h` is not among the
sources) hands back the value of an OK status; failing to obtain the library handle or
the executor is fatal, so on an error status the process is terminated. -/
def ValueOrDie {α : Type} (s : Option α) (what : String) (w : World) : Outcome α :=
  match s with
  | some v => .returned v w
  | none => .aborted (w.emit (.fatal "ValueOrDie on error status" none what))

/-- Modelled from the spec: the logging macro `CHECK(cond) << ...` (`logging.h` is not
among the sources) is the fatal path of symbol resolution: when `cond` is false the
process terminates with a diagnostic naming the symbol and the loader error. -/
def CHECK (cond : Bool) (text : String) (name : Option String) (detail : String)
    (w : World) : Outcome Unit :=
  if cond then .returned () w else .aborted (w.emit (.fatal text name detail))

/-- The logging macro `DCHECK(cond) << ...` (`logging.h` is not among the sources), with
the build parameter it depends on: it is `CHECK` in a build without `NDEBUG` and
compiles to nothing in a build with `NDEBUG`. -/
def DCHECK (cfg : BuildConfig) (cond : Bool) (text : String) (name : Option String)
    (detail : String) (w : World) : Outcome Unit :=
  if cfg.NDEBUG then .returned () w else CHECK cond text name detail w

/-- Run the native code at `t` with `args` under the thread's active context. -/
def callNative (nat : Native) (t : Target) (args : List Arg) (w : World) :
    Outcome NativeReturn :=
  let r := nat.invoke w.trace t w.ctx args
  .returned r (w.emit (.nativeCall t w.ctx args r))

/-! ## `gpu_cudamalloc_allocator.cc`: namespace `dyload` -/

namespace dyload

/-- The list `LIBCUDA_ROUTINE_EACH` of `gpu_cudamalloc_allocator.cc`. -/
def LIBCUDA_ROUTINE_EACH : List String := ["cuMemAlloc", "cuMemFree"]

/-- The member `DynLoadShim__name::GetDsoHandle()`. -/
def GetDsoHandle (nat : Native) (w : World) : Outcome DsoHandle :=
  ValueOrDie nat.GetLibcudaDsoHandle "GetLibcudaDsoHandle" w

/-- The member `DynLoadShim__name::LoadOrDie()`: `kName` is `#__name`, and the status
is guarded by `DCHECK`. -/
def LoadOrDie (cfg : BuildConfig) (nat : Native) (name : String) (w : World) :
    Outcome FuncAddr :=
  let kName : Option String := some name
  (GetDsoHandle nat w).bind fun handle w =>
    let s := nat.GetSymbolFromLibrary w.trace handle kName
    let w := w.emit (.getSymbol handle kName s)
    (DCHECK cfg s.ok "could not find symbol in libcuda DSO" kName s.error_message w).bind
      fun _ w => .returned s.f w

/-- The member `DynLoadShim__name::DynLoad()`: `static FuncPtrT f = LoadOrDie();`. -/
def DynLoad (cfg : BuildConfig) (nat : Native) (name : String) (w : World) :
    Outcome FuncAddr :=
  match w.statics (.dyload_f name) with
  | some f => .returned f w
  | none => (LoadOrDie cfg nat name w).bind fun f w =>
      .returned f (w.setStatic (.dyload_f name) f)

/-- The code `dyload::name(args...)` ends up calling: `::name` under `PLATFORM_GOOGLE`
(`WrapperShim__name`), the result of `DynLoad()` otherwise. -/
def target (cfg : BuildConfig) (nat : Native) (name : String) (w : World) :
    Outcome Target :=
  if cfg.PLATFORM_GOOGLE then .returned (.linked name) w
  else (DynLoad cfg nat name w).bind fun f w => .returned (.address f) w

/-- The call operator of the shim object `dyload::name`. -/
def STREAM_EXECUTOR_LIBCUDA_WRAP (cfg : BuildConfig) (nat : Native) (name : String)
    (args : List Arg) (w : World) : Outcome NativeReturn :=
  (target cfg nat name w).bind fun t w => callNative nat t args w

/-- The shim object `dyload::cuMemAlloc`. -/
def cuMemAlloc (cfg : BuildConfig) (nat : Native) :=
  STREAM_EXECUTOR_LIBCUDA_WRAP cfg nat "cuMemAlloc"

/-- The shim object `dyload::cuMemFree`. -/
def cuMemFree (cfg : BuildConfig) (nat : Native) :=
  STREAM_EXECUTOR_LIBCUDA_WRAP cfg nat "cuMemFree"

end dyload

/-! ## `cuda_driver_wrapper.h` and `cuda_runtime_wrapper.h`: namespace `wrap`

Each listed name becomes a function template `template <typename... Args> auto
name(Args... args)` whose body holds `static FuncPtrT loaded`.  A call deduces `Args...`
from its arguments and runs the instantiation for those types; every instantiation is a
function of its own, with its own `loaded`.  The model therefore looks the static up
under the name together with the argument types of the call.

`TO_STR(x)` gives the spelling of the listed identifier; none of the three files
defines one of the listed names as a preprocessor name. -/

namespace wrap

/-- The list `LIBCUDA_ROUTINE_EACH` of `cuda_driver_wrapper.h`. -/
def LIBCUDA_ROUTINE_EACH : List String :=
  ["cuCtxEnablePeerAccess", "cuCtxGetCurrent", "cuCtxGetDevice", "cuCtxGetSharedMemConfig",
   "cuCtxSetCurrent", "cuCtxSetSharedMemConfig", "cuCtxSynchronize", "cuDeviceCanAccessPeer",
   "cuDeviceComputeCapability", "cuDeviceGet", "cuDeviceGetAttribute", "cuDeviceGetCount",
   "cuDeviceGetName", "cuDeviceGetPCIBusId", "cuDeviceGetProperties",
   "cuDevicePrimaryCtxGetState", "cuDevicePrimaryCtxRelease", "cuDevicePrimaryCtxRetain",
   "cuDevicePrimaryCtxSetFlags", "cuDeviceTotalMem", "cuDriverGetVersion", "cuEventCreate",
   "cuEventDestroy", "cuEventElapsedTime", "cuEventQuery", "cuEventRecord",
   "cuEventSynchronize", "cuFuncGetAttribute", "cuFuncSetCacheConfig", "cuGetErrorName",
   "cuGetErrorString", "cuInit", "cuLaunchKernel", "cuMemAlloc", "cuMemAllocManaged",
   "cuMemFree", "cuMemFreeHost", "cuMemGetAddressRange", "cuMemGetInfo", "cuMemHostAlloc",
   "cuMemHostRegister", "cuMemHostUnregister", "cuMemcpyDtoD", "cuMemcpyDtoDAsync",
   "cuMemcpyDtoH", "cuMemcpyDtoHAsync", "cuMemcpyHtoD", "cuMemcpyHtoDAsync", "cuMemsetD32",
   "cuMemsetD32Async", "cuMemsetD8", "cuMemsetD8Async", "cuModuleGetFunction",
   "cuModuleGetGlobal", "cuModuleLoadDataEx", "cuModuleLoadFatBinary", "cuModuleUnload",
   "cuOccupancyMaxActiveBlocksPerMultiprocessor", "cuOccupancyMaxPotentialBlockSize",
   "cuPointerGetAttribute", "cuStreamAddCallback", "cuStreamCreate", "cuStreamDestroy",
   "cuStreamQuery", "cuStreamSynchronize", "cuStreamWaitEvent"]

/-- The list `LIBCUDART_ROUTINE_EACH` of `cuda_runtime_wrapper.h`. -/
def LIBCUDART_ROUTINE_EACH : List String :=
  ["cudaFree", "cudaGetDevice", "cudaGetDeviceProperties", "cudaGetErrorString",
   "cudaGetLastError", "cudaSetDevice", "cudaStreamAddCallback", "cudaStreamCreate",
   "cudaStreamDestroy", "cudaGetDeviceCount", "cudaStreamSynchronize"]

/-- The function `static void *GetDsoHandle()` of `cuda_driver_wrapper.h`. -/
def GetDsoHandle (nat : Native) (w : World) : Outcome DsoHandle :=
  ValueOrDie nat.GetLibcudaDsoHandle "GetLibcudaDsoHandle" w

/-- The function template `wrap::cudaSymbolName` generated by
`STREAM_EXECUTOR_LIBCUDA_WRAP` in `cuda_driver_wrapper.h`.  The lambda declares
`static const char *kName;` without an initializer, so `kName` is a null pointer. -/
def STREAM_EXECUTOR_LIBCUDA_WRAP (cfg : BuildConfig) (nat : Native) (cudaSymbolName : String)
    (args : List Arg) (w : World) : Outcome NativeReturn :=
  if cfg.PLATFORM_GOOGLE then callNative nat (.linked cudaSymbolName) args w
  else
    let loadedVar := StaticVar.cuda_loaded cudaSymbolName (args.map Arg.ctype)
    let init : Outcome FuncAddr :=
      match w.statics loadedVar with
      | some loaded => .returned loaded w
      | none =>
        let kName : Option String := none
        (GetDsoHandle nat w).bind fun handle w =>
          let s := nat.GetSymbolFromLibrary w.trace handle kName
          let w := w.emit (.getSymbol handle kName s)
          (CHECK s.ok "could not find symbol in libcuda DSO" kName s.error_message w).bind
            fun _ w => .returned s.f (w.setStatic loadedVar s.f)
    init.bind fun loaded w => callNative nat (.address loaded) args w

/-- The function template `wrap::cudaSymbolName` generated by
`STREAM_EXECUTOR_LIBCUDART_WRAP` in `cuda_runtime_wrapper.h`; here
`kName = TO_STR(cudaSymbolName)`. -/
def STREAM_EXECUTOR_LIBCUDART_WRAP (cfg : BuildConfig) (nat : Native)
    (cudaSymbolName : String) (args : List Arg) (w : World) : Outcome NativeReturn :=
  if cfg.PLATFORM_GOOGLE then callNative nat (.linked cudaSymbolName) args w
  else
    let loadedVar := StaticVar.cudart_loaded cudaSymbolName (args.map Arg.ctype)
    let init : Outcome FuncAddr :=
      match w.statics loadedVar with
      | some loaded => .returned loaded w
      | none =>
        let kName : Option String := some cudaSymbolName
        (ValueOrDie nat.GetLibcudartDsoHandle "GetLibcudartDsoHandle" w).bind fun handle w =>
          let s := nat.GetSymbolFromLibrary w.trace handle kName
          let w := w.emit (.getSymbol handle kName s)
          (CHECK s.ok "could not find symbol in libcudart DSO" kName s.error_message w).bind
            fun _ w => .returned s.f (w.setStatic loadedVar s.f)
    init.bind fun loaded w => callNative nat (.address loaded) args w

end wrap

/-! ## `gpu_cudamalloc_allocator.cc`: class `GPUcudaMallocAllocator` -/

/-- Modelled from the spec: `cuda_activation.h` with `ScopedActivateExecutorContext` is
not among the sources.  The spec gives it acquire-with-guaranteed-restore semantics: on
construction the executor's context becomes the thread's active context, on destruction
the context that was active before is active again. -/
structure ScopedActivateExecutorContext where
  to_restore : CUcontext
  deriving DecidableEq, Repr

/-- Modelled from the spec: the constructor of `ScopedActivateExecutorContext` (not among
the sources) makes the executor's context the thread's active one and remembers the
previous one. -/
def ScopedActivateExecutorContext.enter (stream_exec : StreamExecutor) (w : World) :
    ScopedActivateExecutorContext × World :=
  ({ to_restore := w.ctx }, { w with ctx := stream_exec.context })

/-- Modelled from the spec: the destructor of `ScopedActivateExecutorContext` (not among
the sources) makes the remembered context the thread's active one again. -/
def ScopedActivateExecutorContext.leave (s : ScopedActivateExecutorContext) (w : World) :
    World :=
  { w with ctx := s.to_restore }

/-- The data members of `GPUcudaMallocAllocator`; `base_allocator_ = none` is a null
`Allocator*`. -/
structure GPUcudaMallocAllocator where
  base_allocator_ : Option AllocatorRef
  stream_exec_ : StreamExecutor
  deriving DecidableEq, Repr

namespace GPUcudaMallocAllocator

/-- The constructor `GPUcudaMallocAllocator(Allocator* allocator, PlatformGpuId)`. -/
def construct (nat : Native) (allocator : Option AllocatorRef)
    (platform_gpu_id : Nat) (w : World) : Outcome GPUcudaMallocAllocator :=
  (ValueOrDie (nat.ExecutorForPlatformGpuId platform_gpu_id) "ExecutorForPlatformGpuId" w).bind
    fun se w => .returned { base_allocator_ := allocator, stream_exec_ := se } w

/-- The destructor: `delete base_allocator_;` (deleting a null pointer does nothing). -/
def destructor (self : GPUcudaMallocAllocator) (w : World) : Outcome Unit :=
  match self.base_allocator_ with
  | some b => .returned () (w.emit (.deleteAllocator b))
  | none => .returned () w

/-- The member `void* AllocateRaw(size_t alignment, size_t num_bytes)`. -/
def AllocateRaw (self : GPUcudaMallocAllocator) (cfg : BuildConfig) (nat : Native)
    (_alignment num_bytes : Nat) (w : World) : Outcome VoidPtr :=
  if cfg.GOOGLE_CUDA then
    let (scoped_activation, w) := ScopedActivateExecutorContext.enter self.stream_exec_ w
    let rv0 : CUdeviceptr := 0
    (dyload.cuMemAlloc cfg nat
        [.addrOfLocal .CUdeviceptr rv0, .byValue .size_t num_bytes] w).bind fun r w =>
      let rv : CUdeviceptr := r.stored.getD rv0
      let res : CUresult := r.ret
      if res ≠ CUDA_SUCCESS then
        let w := w.emit (.logError "cuMemAlloc failed to allocate " num_bytes)
        .returned nullptr (scoped_activation.leave w)
      else
        .returned rv (scoped_activation.leave w)
  else
    .returned nullptr w

/-- The member `void DeallocateRaw(void* ptr)`. -/
def DeallocateRaw (_self : GPUcudaMallocAllocator) (cfg : BuildConfig)
    (nat : Native) (ptr : VoidPtr) (w : World) : Outcome Unit :=
  if cfg.GOOGLE_CUDA then
    (dyload.cuMemFree cfg nat [.byValue .CUdeviceptr ptr] w).bind fun r w =>
      let res : CUresult := r.ret
      if res ≠ CUDA_SUCCESS then
        .returned () (w.emit (.logError "cuMemFree failed to free " ptr))
      else
        .returned () w
  else
    .returned () w

/-- The member `bool TracksAllocationSizes()`. -/
def TracksAllocationSizes (_self : GPUcudaMallocAllocator) (w : World) :
    Outcome Bool :=
  .returned false w

end GPUcudaMallocAllocator

/-! ## Drivers for sequences of calls -/

/-- One call on the public interface of the allocator. -/
inductive Call where
  | AllocateRaw (alignment num_bytes : Nat)
  | DeallocateRaw (ptr : VoidPtr)
  | TracksAllocationSizes
  deriving DecidableEq, Repr

/-- What such a call hands back. -/
inductive CallResult where
  | pointer (p : VoidPtr)
  | done
  | flag (b : Bool)
  deriving DecidableEq, Repr

/-- Make one call on the allocator. -/
def GPUcudaMallocAllocator.perform (self : GPUcudaMallocAllocator) (cfg : BuildConfig)
    (nat : Native) (c : Call) (w : World) : Outcome CallResult :=
  match c with
  | .AllocateRaw alignment num_bytes =>
    (self.AllocateRaw cfg nat alignment num_bytes w).bind fun p w => .returned (.pointer p) w
  | .DeallocateRaw ptr =>
    (self.DeallocateRaw cfg nat ptr w).bind fun _ w => .returned .done w
  | .TracksAllocationSizes =>
    (self.TracksAllocationSizes w).bind fun b w => .returned (.flag b) w

/-- Make the calls one after the other. -/
def GPUcudaMallocAllocator.performAll (self : GPUcudaMallocAllocator) (cfg : BuildConfig)
    (nat : Native) : List Call → World → Outcome (List CallResult)
  | [], w => .returned [] w
  | c :: cs, w =>
    (self.perform cfg nat c w).bind fun r w =>
      (performAll self cfg nat cs w).bind fun rs w => .returned (r :: rs) w

/-- The life of one allocator object: construct it over `allocator`, make the calls,
destroy it. -/
def GPUcudaMallocAllocator.lifecycle (cfg : BuildConfig) (nat : Native)
    (allocator : Option AllocatorRef) (platform_gpu_id : Nat) (calls : List Call)
    (w : World) : Outcome (List CallResult) :=
  (GPUcudaMallocAllocator.construct nat allocator platform_gpu_id w).bind
    fun self w => (self.performAll cfg nat calls w).bind
      fun rs w => (self.destructor w).bind fun _ w => .returned rs w

/-- The three families of entry-point proxies, by entry-point name. -/
inductive Proxy where
  /-- The shim object `dyload::name` of `gpu_cudamalloc_allocator.cc`. -/
  | dyload (name : String)
  /-- The function template `wrap::name` of `cuda_driver_wrapper.h`. -/
  | cuda (name : String)
  /-- The function template `wrap::name` of `cuda_runtime_wrapper.h`. -/
  | cudart (name : String)
  deriving DecidableEq, Repr

namespace Proxy

/-- Invoke the proxy. -/
def call (cfg : BuildConfig) (nat : Native) : Proxy → List Arg → World → Outcome NativeReturn
  | .dyload name => tensorflow.dyload.STREAM_EXECUTOR_LIBCUDA_WRAP cfg nat name
  | .cuda name => wrap.STREAM_EXECUTOR_LIBCUDA_WRAP cfg nat name
  | .cudart name => wrap.STREAM_EXECUTOR_LIBCUDART_WRAP cfg nat name

/-- The entry point's name as listed. -/
def name : Proxy → String
  | .dyload n => n
  | .cuda n => n
  | .cudart n => n

/-- The value of `kName` in the proxy's code: what it passes to the symbol lookup. -/
def kName : Proxy → Option String
  | .dyload n => some n
  | .cuda _ => none
  | .cudart n => some n

/-- The static in which an invocation with these arguments finds or leaves the resolved
pointer. -/
def staticVar : Proxy → List Arg → StaticVar
  | .dyload n, _ => .dyload_f n
  | .cuda n, args => .cuda_loaded n (args.map Arg.ctype)
  | .cudart n, args => .cudart_loaded n (args.map Arg.ctype)

/-- The library handle of the proxy's set. -/
def dsoHandle (nat : Native) : Proxy → Option DsoHandle
  | .dyload _ => nat.GetLibcudaDsoHandle
  | .cuda _ => nat.GetLibcudaDsoHandle
  | .cudart _ => nat.GetLibcudartDsoHandle

/-- Invoke the proxy once per argument list, in order. -/
def callAll (cfg : BuildConfig) (nat : Native) (p : Proxy) :
    List (List Arg) → World → Outcome (List NativeReturn)
  | [], w => .returned [] w
  | args :: rest, w =>
    (p.call cfg nat args w).bind fun r w =>
      (callAll cfg nat p rest w).bind fun rs w => .returned (r :: rs) w

end Proxy

/-- Calling the native code at `t` directly, once per argument list, starting from the
record `tr`: the results, and the record afterwards.  This is what a proxy is compared
with. -/
def callDirectly (nat : Native) (t : Target) (ctx : CUcontext) :
    List Event → List (List Arg) → List NativeReturn × List Event
  | tr, [] => ([], tr)
  | tr, args :: rest =>
    let r := nat.invoke tr t ctx args
    let later := callDirectly nat t ctx (tr ++ [.nativeCall t ctx args r]) rest
    (r :: later.1, later.2)

/-! ## Concrete test doubles -/

namespace demo

/-- A lazy-dynamic CUDA build with debug checks on. -/
def debugBuild : BuildConfig := { GOOGLE_CUDA := true, PLATFORM_GOOGLE := false, NDEBUG := false }

/-- A lazy-dynamic CUDA build with `NDEBUG`. -/
def releaseBuild : BuildConfig := { GOOGLE_CUDA := true, PLATFORM_GOOGLE := false, NDEBUG := true }

/-- A double whose lookups all succeed (at an address that depends on the handle and on
the length of the name) or all fail, and whose native calls all return `ret`, storing the
address 4096 through a leading out-pointer when `ret` is `CUDA_SUCCESS`. -/
def native (lookupOk : Bool) (ret : CUresult) : Native where
  GetLibcudaDsoHandle := some 1
  GetLibcudartDsoHandle := some 2
  GetSymbolFromLibrary := fun _ handle name =>
    if lookupOk then
      { ok := true, f := 7000 + 100 * handle + (name.map String.length).getD 0,
        error_message := "" }
    else { ok := false, f := 57005, error_message := "undefined symbol" }
  invoke := fun _ _ _ args =>
    match args with
    | .addrOfLocal _ _ :: _ =>
      { ret := ret, stored := if ret = CUDA_SUCCESS then some 4096 else none }
    | _ => { ret := ret, stored := none }
  ExecutorForPlatformGpuId := fun _ => some { context := 2 }

/-- A fresh process whose calling thread holds context 1. -/
def world : World := { ctx := 1, statics := fun _ => none, trace := [] }

/-- An allocator for the device with context 2, owning backing allocator 9. -/
def allocator : GPUcudaMallocAllocator :=
  { base_allocator_ := some 9, stream_exec_ := { context := 2 } }

/-- The arguments of `cuMemAlloc(&rv, num_bytes)` with `size_t num_bytes = 1 << 30`. -/
def allocArgs : List Arg := [.addrOfLocal .CUdeviceptr 0, .byValue .size_t (2 ^ 30)]

/-- The arguments of `cuMemAlloc(&rv, 1024)` with an `int` literal. -/
def allocArgsInt : List Arg := [.addrOfLocal .CUdeviceptr 0, .byValue .int 1024]

end demo

/-! # Theorems -/

open GPUcudaMallocAllocator

/-! ## Symbol resolution in the allocator's shims -/

/-- A resolution event is not a native call. -/
theorem Event.not_nativeCall_of_isResolution {e : Event} (h : e.isResolution = true) :
    e.isNativeCall = false := by
  cases e <;> simp_all [Event.isResolution, Event.isNativeCall]

/-- A symbol lookup is a resolution event. -/
theorem Event.isResolution_of_isGetSymbol {e : Event} (h : e.isGetSymbol = true) :
    e.isResolution = true := by
  cases e <;> simp_all [Event.isResolution, Event.isGetSymbol]

/-- A resolution event is not a `LOG(ERROR)` entry. -/
theorem Event.not_logError_of_isResolution {e : Event} (h : e.isResolution = true) :
    e.isLogError = false := by
  cases e <;> simp_all [Event.isResolution, Event.isLogError]

/-- Resolving a shim's target comes back in one of three ways (direct link, cached
pointer, fresh lookup that is not fatal) or terminates the process; in each case the
active context is kept and only resolution events are recorded.  The context the thread
holds has no influence. -/
theorem dyload.target_cases (cfg : BuildConfig) (nat : Native) (name : String) (w : World)
    (c : CUcontext) :
    (∃ t pre sv,
        dyload.target cfg nat name w =
          .returned t { ctx := w.ctx, statics := sv, trace := w.trace ++ pre } ∧
        dyload.target cfg nat name { w with ctx := c } =
          .returned t { ctx := c, statics := sv, trace := w.trace ++ pre } ∧
        ∀ e ∈ pre, e.isGetSymbol = true) ∨
    (∃ pre sv,
        dyload.target cfg nat name w =
          .aborted { ctx := w.ctx, statics := sv, trace := w.trace ++ pre } ∧
        dyload.target cfg nat name { w with ctx := c } =
          .aborted { ctx := c, statics := sv, trace := w.trace ++ pre } ∧
        ∀ e ∈ pre, e.isResolution = true) := by
  by_cases hP : cfg.PLATFORM_GOOGLE = true
  · exact .inl ⟨.linked name, [], w.statics, by simp [dyload.target, hP],
      by simp [dyload.target, hP], by simp⟩
  · cases hs : w.statics (.dyload_f name) with
    | some f =>
      exact .inl ⟨.address f, [], w.statics,
        by simp [dyload.target, dyload.DynLoad, Outcome.bind, hP, hs],
        by simp [dyload.target, dyload.DynLoad, Outcome.bind, hP, hs], by simp⟩
    | none =>
      cases hh : nat.GetLibcudaDsoHandle with
      | none =>
        exact .inr ⟨[.fatal "ValueOrDie on error status" none "GetLibcudaDsoHandle"], w.statics,
          by simp [dyload.target, dyload.DynLoad, dyload.LoadOrDie, dyload.GetDsoHandle,
            ValueOrDie, CHECK, DCHECK, Outcome.bind, World.emit, hP, hs, hh],
          by simp [dyload.target, dyload.DynLoad, dyload.LoadOrDie, dyload.GetDsoHandle,
            ValueOrDie, CHECK, DCHECK, Outcome.bind, World.emit, hP, hs, hh],
          by simp [Event.isResolution]⟩
      | some handle =>
        have hret : cfg.NDEBUG = true ∨
            (nat.GetSymbolFromLibrary w.trace handle (some name)).ok = true →
            ∃ t pre sv,
              dyload.target cfg nat name w =
                .returned t { ctx := w.ctx, statics := sv, trace := w.trace ++ pre } ∧
              dyload.target cfg nat name { w with ctx := c } =
                .returned t { ctx := c, statics := sv, trace := w.trace ++ pre } ∧
              ∀ e ∈ pre, e.isGetSymbol = true := by
          intro hd
          refine ⟨.address (nat.GetSymbolFromLibrary w.trace handle (some name)).f,
            [.getSymbol handle (some name)
              (nat.GetSymbolFromLibrary w.trace handle (some name))],
            fun k => if k = .dyload_f name then
              some (nat.GetSymbolFromLibrary w.trace handle (some name)).f else w.statics k,
            ?_, ?_, by simp [Event.isGetSymbol]⟩
          · rcases hd with hd | hd <;>
              simp [dyload.target, dyload.DynLoad, dyload.LoadOrDie, dyload.GetDsoHandle,
                ValueOrDie, CHECK, DCHECK, Outcome.bind, World.emit, World.setStatic, hP, hs,
                hh, hd]
          · rcases hd with hd | hd <;>
              simp [dyload.target, dyload.DynLoad, dyload.LoadOrDie, dyload.GetDsoHandle,
                ValueOrDie, CHECK, DCHECK, Outcome.bind, World.emit, World.setStatic, hP, hs,
                hh, hd]
        by_cases hN : cfg.NDEBUG = true
        · exact .inl (hret (.inl hN))
        · by_cases hok : (nat.GetSymbolFromLibrary w.trace handle (some name)).ok = true
          · exact .inl (hret (.inr hok))
          · exact .inr ⟨[.getSymbol handle (some name)
                (nat.GetSymbolFromLibrary w.trace handle (some name)),
              .fatal "could not find symbol in libcuda DSO" (some name)
                (nat.GetSymbolFromLibrary w.trace handle (some name)).error_message],
              w.statics,
              by simp [dyload.target, dyload.DynLoad, dyload.LoadOrDie, dyload.GetDsoHandle,
                ValueOrDie, CHECK, DCHECK, Outcome.bind, World.emit, hP, hs, hh, hN, hok],
              by simp [dyload.target, dyload.DynLoad, dyload.LoadOrDie, dyload.GetDsoHandle,
                ValueOrDie, CHECK, DCHECK, Outcome.bind, World.emit, hP, hs, hh, hN, hok],
              by simp [Event.isResolution]⟩

/-! ## The allocator in terms of the resolved target -/

/-- Closed form of `AllocateRaw` once `cuMemAlloc` resolved to `t`. -/
theorem GPUcudaMallocAllocator.AllocateRaw_of_returned (self : GPUcudaMallocAllocator)
    (cfg : BuildConfig) (nat : Native) (alignment num_bytes : Nat) (w : World) (t : Target)
    (sv : StaticVar → Option FuncAddr) (pre : List Event) (hc : cfg.GOOGLE_CUDA = true)
    (ht : dyload.target cfg nat "cuMemAlloc" { w with ctx := self.stream_exec_.context } =
      .returned t { ctx := self.stream_exec_.context, statics := sv, trace := w.trace ++ pre }) :
    self.AllocateRaw cfg nat alignment num_bytes w =
      .returned
        (if (nat.invoke (w.trace ++ pre) t self.stream_exec_.context
              [.addrOfLocal .CUdeviceptr 0, .byValue .size_t num_bytes]).ret = CUDA_SUCCESS
          then (nat.invoke (w.trace ++ pre) t self.stream_exec_.context
              [.addrOfLocal .CUdeviceptr 0, .byValue .size_t num_bytes]).stored.getD 0
          else nullptr)
        { ctx := w.ctx, statics := sv,
          trace := w.trace ++ (pre ++
            .nativeCall t self.stream_exec_.context
              [.addrOfLocal .CUdeviceptr 0, .byValue .size_t num_bytes]
              (nat.invoke (w.trace ++ pre) t self.stream_exec_.context
                [.addrOfLocal .CUdeviceptr 0, .byValue .size_t num_bytes]) ::
            (if (nat.invoke (w.trace ++ pre) t self.stream_exec_.context
                  [.addrOfLocal .CUdeviceptr 0, .byValue .size_t num_bytes]).ret = CUDA_SUCCESS
              then [] else [.logError "cuMemAlloc failed to allocate " num_bytes])) } := by
  simp only [AllocateRaw, hc, if_true, ScopedActivateExecutorContext.enter, dyload.cuMemAlloc,
    dyload.STREAM_EXECUTOR_LIBCUDA_WRAP, ht, Outcome.bind, callNative, World.emit,
    ScopedActivateExecutorContext.leave]
  split <;> simp_all

/-- When resolving `cuMemAlloc` terminates the process, so does `AllocateRaw`. -/
theorem GPUcudaMallocAllocator.AllocateRaw_of_aborted (self : GPUcudaMallocAllocator)
    (cfg : BuildConfig) (nat : Native) (alignment num_bytes : Nat) (w w1 : World)
    (hc : cfg.GOOGLE_CUDA = true)
    (ht : dyload.target cfg nat "cuMemAlloc" { w with ctx := self.stream_exec_.context } =
      .aborted w1) :
    self.AllocateRaw cfg nat alignment num_bytes w = .aborted w1 := by
  simp only [AllocateRaw, hc, if_true, ScopedActivateExecutorContext.enter, dyload.cuMemAlloc,
    dyload.STREAM_EXECUTOR_LIBCUDA_WRAP, ht, Outcome.bind]

/-- Closed form of `DeallocateRaw` once `cuMemFree` resolved to `t`. -/
theorem GPUcudaMallocAllocator.DeallocateRaw_of_returned (self : GPUcudaMallocAllocator)
    (cfg : BuildConfig) (nat : Native) (ptr : VoidPtr) (w : World) (t : Target)
    (sv : StaticVar → Option FuncAddr) (pre : List Event) (hc : cfg.GOOGLE_CUDA = true)
    (ht : dyload.target cfg nat "cuMemFree" w =
      .returned t { ctx := w.ctx, statics := sv, trace := w.trace ++ pre }) :
    self.DeallocateRaw cfg nat ptr w =
      .returned ()
        { ctx := w.ctx, statics := sv,
          trace := w.trace ++ (pre ++
            .nativeCall t w.ctx [.byValue .CUdeviceptr ptr]
              (nat.invoke (w.trace ++ pre) t w.ctx [.byValue .CUdeviceptr ptr]) ::
            (if (nat.invoke (w.trace ++ pre) t w.ctx [.byValue .CUdeviceptr ptr]).ret
                  = CUDA_SUCCESS
              then [] else [.logError "cuMemFree failed to free " ptr])) } := by
  simp only [DeallocateRaw, hc, if_true, dyload.cuMemFree,
    dyload.STREAM_EXECUTOR_LIBCUDA_WRAP, ht, Outcome.bind, callNative, World.emit]
  split <;> simp_all

/-- When resolving `cuMemFree` terminates the process, so does `DeallocateRaw`. -/
theorem GPUcudaMallocAllocator.DeallocateRaw_of_aborted (self : GPUcudaMallocAllocator)
    (cfg : BuildConfig) (nat : Native) (ptr : VoidPtr) (w w1 : World)
    (hc : cfg.GOOGLE_CUDA = true)
    (ht : dyload.target cfg nat "cuMemFree" w = .aborted w1) :
    self.DeallocateRaw cfg nat ptr w = .aborted w1 := by
  simp only [DeallocateRaw, hc, if_true, dyload.cuMemFree,
    dyload.STREAM_EXECUTOR_LIBCUDA_WRAP, ht, Outcome.bind]

/-- A stretch of symbol lookups contains no native call. -/
theorem filter_nativeCall_of_getSymbol {pre : List Event}
    (h : ∀ e ∈ pre, e.isGetSymbol = true) : pre.filter Event.isNativeCall = [] := by
  rw [List.filter_eq_nil_iff]
  intro e he
  simp [Event.not_nativeCall_of_isResolution (Event.isResolution_of_isGetSymbol (h e he))]

/-! ## Claims about `AllocateRaw` and `DeallocateRaw` -/

/-- C1: whenever the native allocate call made by `AllocateRaw(alignment, num_bytes)`
reports a result other than `CUDA_SUCCESS`, `AllocateRaw` returns to its caller, the
value returned is the null pointer, and that call is the only native call made. -/
theorem AllocateRaw_native_failure_returns_nullptr (self : GPUcudaMallocAllocator)
    (cfg : BuildConfig) (nat : Native) (alignment num_bytes : Nat) (w : World) (t : Target)
    (c : CUcontext) (a : List Arg) (r : NativeReturn)
    (hcall : Event.nativeCall t c a r ∈
      (self.AllocateRaw cfg nat alignment num_bytes w).newEvents w)
    (hfail : r.ret ≠ CUDA_SUCCESS) :
    (self.AllocateRaw cfg nat alignment num_bytes w).value? = some nullptr ∧
    ((self.AllocateRaw cfg nat alignment num_bytes w).newEvents w).filter Event.isNativeCall =
      [Event.nativeCall t c a r] := by
  by_cases hc : cfg.GOOGLE_CUDA = true
  · rcases dyload.target_cases cfg nat "cuMemAlloc" w self.stream_exec_.context with
      ⟨t1, pre, sv, -, ht, hpre⟩ | ⟨pre, sv, -, ht, hpre⟩
    · rw [AllocateRaw_of_returned self cfg nat alignment num_bytes w t1 sv pre hc ht] at hcall ⊢
      simp only [Outcome.newEvents, Outcome.world, List.drop_left, List.mem_append,
        List.mem_cons] at hcall
      rcases hcall with hmem | heq | hmem
      · have := hpre _ hmem
        simp [Event.isGetSymbol] at this
      · cases heq
        simp [Outcome.newEvents, Outcome.world, Outcome.value?, hfail, List.filter_cons,
          Event.isNativeCall, Event.isLogError, filter_nativeCall_of_getSymbol hpre]
      · split at hmem <;> simp at hmem
    · rw [AllocateRaw_of_aborted self cfg nat alignment num_bytes w _ hc ht] at hcall
      simp only [Outcome.newEvents, Outcome.world, List.drop_left] at hcall
      have := hpre _ hcall
      simp [Event.isResolution] at this
  · simp [AllocateRaw, hc, Outcome.newEvents, Outcome.world] at hcall

/-- A witness for C1: the allocate double fails with status 2 on
`AllocateRaw(256, 1 << 30)`. -/
theorem AllocateRaw_native_failure_returns_nullptr_witness :
    Event.nativeCall (.address 7110) 2 demo.allocArgs { ret := 2, stored := none } ∈
      (demo.allocator.AllocateRaw demo.debugBuild (demo.native true 2) 256 (2 ^ 30)
        demo.world).newEvents demo.world ∧
    (2 : CUresult) ≠ CUDA_SUCCESS ∧
    (demo.allocator.AllocateRaw demo.debugBuild (demo.native true 2) 256 (2 ^ 30)
      demo.world).value? = some nullptr ∧
    ((demo.allocator.AllocateRaw demo.debugBuild (demo.native true 2) 256 (2 ^ 30)
      demo.world).newEvents demo.world).filter Event.isNativeCall =
      [Event.nativeCall (.address 7110) 2 demo.allocArgs { ret := 2, stored := none }] :=
  ⟨by decide, by decide,
    AllocateRaw_native_failure_returns_nullptr demo.allocator demo.debugBuild
      (demo.native true 2) 256 (2 ^ 30) demo.world (.address 7110) 2 demo.allocArgs
      { ret := 2, stored := none } (by decide) (by decide)⟩

/-- C2: in a CUDA build in which `cuMemAlloc` resolves to `t`, `AllocateRaw(alignment,
num_bytes)` makes exactly one native call: to `t`, with an out-pointer to `rv = 0` and
exactly `num_bytes`.  When that call reports `CUDA_SUCCESS` the value returned is the
address found in `rv` afterwards, and any other `alignment` gives the very same
outcome. -/
theorem AllocateRaw_one_native_call_alignment_ignored (self : GPUcudaMallocAllocator)
    (cfg : BuildConfig) (nat : Native) (alignment num_bytes : Nat) (w : World) (t : Target)
    (hc : cfg.GOOGLE_CUDA = true)
    (hres : (dyload.target cfg nat "cuMemAlloc" w).value? = some t) :
    ∃ r : NativeReturn,
      ((self.AllocateRaw cfg nat alignment num_bytes w).newEvents w).filter
          Event.isNativeCall =
        [Event.nativeCall t self.stream_exec_.context
          [.addrOfLocal .CUdeviceptr 0, .byValue .size_t num_bytes] r] ∧
      (r.ret = CUDA_SUCCESS →
        (self.AllocateRaw cfg nat alignment num_bytes w).value? = some (r.stored.getD 0)) ∧
      ∀ alignment' : Nat,
        self.AllocateRaw cfg nat alignment' num_bytes w =
          self.AllocateRaw cfg nat alignment num_bytes w := by
  rcases dyload.target_cases cfg nat "cuMemAlloc" w self.stream_exec_.context with
    ⟨t1, pre, sv, ht0, ht, hpre⟩ | ⟨pre, sv, ht0, -, -⟩
  · rw [ht0] at hres
    simp only [Outcome.value?, Option.some.injEq] at hres
    subst hres
    refine ⟨nat.invoke (w.trace ++ pre) t1 self.stream_exec_.context
      [.addrOfLocal .CUdeviceptr 0, .byValue .size_t num_bytes], ?_, ?_, ?_⟩
    · rw [AllocateRaw_of_returned self cfg nat alignment num_bytes w t1 sv pre hc ht]
      simp only [Outcome.newEvents, Outcome.world, List.drop_left, List.filter_append,
        filter_nativeCall_of_getSymbol hpre, List.nil_append]
      split <;> simp [List.filter_cons, Event.isNativeCall]
    · intro hok
      rw [AllocateRaw_of_returned self cfg nat alignment num_bytes w t1 sv pre hc ht]
      simp [Outcome.value?, hok]
    · intro alignment'
      rfl
  · rw [ht0] at hres
    simp [Outcome.value?] at hres

/-- A witness for C2: a successful `AllocateRaw(256, 1 << 30)` on a fresh process. -/
theorem AllocateRaw_one_native_call_alignment_ignored_witness :
    demo.debugBuild.GOOGLE_CUDA = true ∧
    (dyload.target demo.debugBuild (demo.native true 0) "cuMemAlloc" demo.world).value? =
      some (.address 7110) ∧
    ∃ r : NativeReturn,
      ((demo.allocator.AllocateRaw demo.debugBuild (demo.native true 0) 256 (2 ^ 30)
          demo.world).newEvents demo.world).filter Event.isNativeCall =
        [Event.nativeCall (.address 7110) demo.allocator.stream_exec_.context
          [.addrOfLocal .CUdeviceptr 0, .byValue .size_t (2 ^ 30)] r] ∧
      (r.ret = CUDA_SUCCESS →
        (demo.allocator.AllocateRaw demo.debugBuild (demo.native true 0) 256 (2 ^ 30)
          demo.world).value? = some (r.stored.getD 0)) ∧
      ∀ alignment' : Nat,
        demo.allocator.AllocateRaw demo.debugBuild (demo.native true 0) alignment' (2 ^ 30)
            demo.world =
          demo.allocator.AllocateRaw demo.debugBuild (demo.native true 0) 256 (2 ^ 30)
            demo.world :=
  ⟨by decide, by decide,
    AllocateRaw_one_native_call_alignment_ignored demo.allocator demo.debugBuild
      (demo.native true 0) 256 (2 ^ 30) demo.world (.address 7110) (by decide) (by decide)⟩

/-- C3: when the two entry points resolve, `AllocateRaw` and `DeallocateRaw` both return
to the caller, and the thread's active context afterwards is the one it held before the
call, whatever the native call reported and whatever context the allocator's device
has. -/
theorem active_context_unchanged_by_allocate_and_deallocate (self : GPUcudaMallocAllocator)
    (cfg : BuildConfig) (nat : Native) (alignment num_bytes : Nat) (ptr : VoidPtr)
    (w : World) (tA tF : Target)
    (hA : (dyload.target cfg nat "cuMemAlloc" w).value? = some tA)
    (hF : (dyload.target cfg nat "cuMemFree" w).value? = some tF) :
    (∃ v w', self.AllocateRaw cfg nat alignment num_bytes w = .returned v w' ∧
      w'.ctx = w.ctx) ∧
    (∃ w', self.DeallocateRaw cfg nat ptr w = .returned () w' ∧ w'.ctx = w.ctx) := by
  by_cases hc : cfg.GOOGLE_CUDA = true
  · constructor
    · rcases dyload.target_cases cfg nat "cuMemAlloc" w self.stream_exec_.context with
        ⟨t1, pre, sv, -, ht, -⟩ | ⟨pre, sv, ht0, -, -⟩
      · rw [AllocateRaw_of_returned self cfg nat alignment num_bytes w t1 sv pre hc ht]
        exact ⟨_, _, rfl, rfl⟩
      · rw [ht0] at hA
        simp [Outcome.value?] at hA
    · rcases dyload.target_cases cfg nat "cuMemFree" w w.ctx with
        ⟨t1, pre, sv, ht, -, -⟩ | ⟨pre, sv, ht0, -, -⟩
      · rw [DeallocateRaw_of_returned self cfg nat ptr w t1 sv pre hc ht]
        exact ⟨_, rfl, rfl⟩
      · rw [ht0] at hF
        simp [Outcome.value?] at hF
  · exact ⟨⟨nullptr, w, by simp [AllocateRaw, hc], rfl⟩,
      ⟨w, by simp [DeallocateRaw, hc], rfl⟩⟩

/-- A witness for C3: the thread holds context 1, the device has context 2, and both
native calls fail. -/
theorem active_context_unchanged_by_allocate_and_deallocate_witness :
    (dyload.target demo.debugBuild (demo.native true 2) "cuMemAlloc" demo.world).value? =
      some (.address 7110) ∧
    (dyload.target demo.debugBuild (demo.native true 2) "cuMemFree" demo.world).value? =
      some (.address 7109) ∧
    (∃ v w', demo.allocator.AllocateRaw demo.debugBuild (demo.native true 2) 256 (2 ^ 30)
        demo.world = .returned v w' ∧ w'.ctx = demo.world.ctx) ∧
    (∃ w', demo.allocator.DeallocateRaw demo.debugBuild (demo.native true 2) 4096
        demo.world = .returned () w' ∧ w'.ctx = demo.world.ctx) :=
  ⟨by decide, by decide,
    active_context_unchanged_by_allocate_and_deallocate demo.allocator demo.debugBuild
      (demo.native true 2) 256 (2 ^ 30) 4096 demo.world (.address 7110) (.address 7109)
      (by decide) (by decide)⟩

/-- C4: in a CUDA build in which `cuMemFree` resolves to `t`, `DeallocateRaw(ptr)`
returns to the caller after exactly one native call, to `t` and on `ptr`; it records one
`LOG(ERROR)` entry, naming `ptr`, when that call reports a result other than
`CUDA_SUCCESS`, and none when it reports `CUDA_SUCCESS`. -/
theorem DeallocateRaw_one_native_free_failure_absorbed (self : GPUcudaMallocAllocator)
    (cfg : BuildConfig) (nat : Native) (ptr : VoidPtr) (w : World) (t : Target)
    (hc : cfg.GOOGLE_CUDA = true)
    (hres : (dyload.target cfg nat "cuMemFree" w).value? = some t) :
    ∃ (r : NativeReturn) (w' : World),
      self.DeallocateRaw cfg nat ptr w = .returned () w' ∧
      ((self.DeallocateRaw cfg nat ptr w).newEvents w).filter Event.isNativeCall =
        [Event.nativeCall t w.ctx [.byValue .CUdeviceptr ptr] r] ∧
      ((self.DeallocateRaw cfg nat ptr w).newEvents w).filter Event.isLogError =
        (if r.ret = CUDA_SUCCESS then []
          else [Event.logError "cuMemFree failed to free " ptr]) := by
  rcases dyload.target_cases cfg nat "cuMemFree" w w.ctx with
    ⟨t1, pre, sv, ht, -, hpre⟩ | ⟨pre, sv, ht0, -, -⟩
  · rw [ht] at hres
    simp only [Outcome.value?, Option.some.injEq] at hres
    subst hres
    have hlog : pre.filter Event.isLogError = [] := by
      rw [List.filter_eq_nil_iff]
      intro e he
      simp [Event.not_logError_of_isResolution (Event.isResolution_of_isGetSymbol (hpre e he))]
    refine ⟨nat.invoke (w.trace ++ pre) t1 w.ctx [.byValue .CUdeviceptr ptr], _,
      DeallocateRaw_of_returned self cfg nat ptr w t1 sv pre hc ht, ?_, ?_⟩
    · rw [DeallocateRaw_of_returned self cfg nat ptr w t1 sv pre hc ht]
      simp only [Outcome.newEvents, Outcome.world, List.drop_left, List.filter_append,
        filter_nativeCall_of_getSymbol hpre, List.nil_append]
      split <;> simp [List.filter_cons, Event.isNativeCall]
    · rw [DeallocateRaw_of_returned self cfg nat ptr w t1 sv pre hc ht]
      simp only [Outcome.newEvents, Outcome.world, List.drop_left, List.filter_append,
        hlog, List.nil_append]
      split <;> simp [List.filter_cons, Event.isLogError]
  · rw [ht0] at hres
    simp [Outcome.value?] at hres

/-- A witness for C4: the free double fails with status 1 on `DeallocateRaw(4096)`. -/
theorem DeallocateRaw_one_native_free_failure_absorbed_witness :
    demo.debugBuild.GOOGLE_CUDA = true ∧
    (dyload.target demo.debugBuild (demo.native true 1) "cuMemFree" demo.world).value? =
      some (.address 7109) ∧
    ∃ (r : NativeReturn) (w' : World),
      demo.allocator.DeallocateRaw demo.debugBuild (demo.native true 1) 4096 demo.world =
        .returned () w' ∧
      ((demo.allocator.DeallocateRaw demo.debugBuild (demo.native true 1) 4096
          demo.world).newEvents demo.world).filter Event.isNativeCall =
        [Event.nativeCall (.address 7109) demo.world.ctx [.byValue .CUdeviceptr 4096] r] ∧
      ((demo.allocator.DeallocateRaw demo.debugBuild (demo.native true 1) 4096
          demo.world).newEvents demo.world).filter Event.isLogError =
        (if r.ret = CUDA_SUCCESS then []
          else [Event.logError "cuMemFree failed to free " 4096]) :=
  ⟨by decide, by decide,
    DeallocateRaw_one_native_free_failure_absorbed demo.allocator demo.debugBuild
      (demo.native true 1) 4096 demo.world (.address 7109) (by decide) (by decide)⟩

/-- C8, refuted as stated: with the thread holding context 1 and the allocator bound to a
device with context 2, the native free call of `DeallocateRaw` is issued under context
1. -/
theorem DeallocateRaw_native_free_not_under_device_context :
    Event.nativeCall (.address 7109) 1 [.byValue .CUdeviceptr 4096]
        { ret := 0, stored := none } ∈
      (demo.allocator.DeallocateRaw demo.debugBuild (demo.native true 0) 4096
        demo.world).newEvents demo.world ∧
    (1 : CUcontext) ≠ demo.allocator.stream_exec_.context := by
  decide

/-- C8, amended: in a CUDA build in which the two entry points resolve, the one native
call of `AllocateRaw` is issued while the context of the allocator's device is the
thread's active context, whatever context the thread held before; the one native call
of `DeallocateRaw` is issued under the context the thread held at the call. -/
theorem native_calls_active_context (self : GPUcudaMallocAllocator) (cfg : BuildConfig)
    (nat : Native) (alignment num_bytes : Nat) (ptr : VoidPtr) (w : World) (tA tF : Target)
    (hc : cfg.GOOGLE_CUDA = true)
    (hA : (dyload.target cfg nat "cuMemAlloc" w).value? = some tA)
    (hF : (dyload.target cfg nat "cuMemFree" w).value? = some tF) :
    (∃ a r, ((self.AllocateRaw cfg nat alignment num_bytes w).newEvents w).filter
        Event.isNativeCall = [Event.nativeCall tA self.stream_exec_.context a r]) ∧
    (∃ a r, ((self.DeallocateRaw cfg nat ptr w).newEvents w).filter
        Event.isNativeCall = [Event.nativeCall tF w.ctx a r]) := by
  constructor
  · rcases dyload.target_cases cfg nat "cuMemAlloc" w self.stream_exec_.context with
      ⟨t1, pre, sv, ht0, ht, hpre⟩ | ⟨pre, sv, ht0, -, -⟩
    · rw [ht0] at hA
      simp only [Outcome.value?, Option.some.injEq] at hA
      subst hA
      refine ⟨[.addrOfLocal .CUdeviceptr 0, .byValue .size_t num_bytes],
        nat.invoke (w.trace ++ pre) t1 self.stream_exec_.context
          [.addrOfLocal .CUdeviceptr 0, .byValue .size_t num_bytes], ?_⟩
      rw [AllocateRaw_of_returned self cfg nat alignment num_bytes w t1 sv pre hc ht]
      simp only [Outcome.newEvents, Outcome.world, List.drop_left, List.filter_append,
        filter_nativeCall_of_getSymbol hpre, List.nil_append]
      split <;> simp [List.filter_cons, Event.isNativeCall]
    · rw [ht0] at hA
      simp [Outcome.value?] at hA
  · rcases dyload.target_cases cfg nat "cuMemFree" w w.ctx with
      ⟨t1, pre, sv, ht, -, hpre⟩ | ⟨pre, sv, ht0, -, -⟩
    · rw [ht] at hF
      simp only [Outcome.value?, Option.some.injEq] at hF
      subst hF
      refine ⟨[.byValue .CUdeviceptr ptr],
        nat.invoke (w.trace ++ pre) t1 w.ctx [.byValue .CUdeviceptr ptr], ?_⟩
      rw [DeallocateRaw_of_returned self cfg nat ptr w t1 sv pre hc ht]
      simp only [Outcome.newEvents, Outcome.world, List.drop_left, List.filter_append,
        filter_nativeCall_of_getSymbol hpre, List.nil_append]
      split <;> simp [List.filter_cons, Event.isNativeCall]
    · rw [ht0] at hF
      simp [Outcome.value?] at hF

/-- A witness for the amended C8: thread context 1, device context 2. -/
theorem native_calls_active_context_witness :
    demo.debugBuild.GOOGLE_CUDA = true ∧
    (dyload.target demo.debugBuild (demo.native true 0) "cuMemAlloc" demo.world).value? =
      some (.address 7110) ∧
    (dyload.target demo.debugBuild (demo.native true 0) "cuMemFree" demo.world).value? =
      some (.address 7109) ∧
    (∃ a r, ((demo.allocator.AllocateRaw demo.debugBuild (demo.native true 0) 256 (2 ^ 30)
        demo.world).newEvents demo.world).filter Event.isNativeCall =
      [Event.nativeCall (.address 7110) demo.allocator.stream_exec_.context a r]) ∧
    (∃ a r, ((demo.allocator.DeallocateRaw demo.debugBuild (demo.native true 0) 4096
        demo.world).newEvents demo.world).filter Event.isNativeCall =
      [Event.nativeCall (.address 7109) demo.world.ctx a r]) :=
  ⟨by decide, by decide, by decide,
    native_calls_active_context demo.allocator demo.debugBuild (demo.native true 0) 256
      (2 ^ 30) 4096 demo.world (.address 7110) (.address 7109) (by decide) (by decide)
      (by decide)⟩

/-! ## The backing allocator -/

/-- One call on the allocator records nothing that touches an `Allocator` object. -/
theorem GPUcudaMallocAllocator.perform_trace (self : GPUcudaMallocAllocator)
    (cfg : BuildConfig) (nat : Native) (b : AllocatorRef) (c : Call) (w : World) :
    ∃ pre, (self.perform cfg nat c w).world.trace = w.trace ++ pre ∧
      ∀ e ∈ pre, e.isUseOf b = false ∧ e.isDeleteOf b = false := by
  have hres : ∀ {pre : List Event}, (∀ e ∈ pre, e.isResolution = true) →
      ∀ e ∈ pre, e.isUseOf b = false ∧ e.isDeleteOf b = false := by
    intro pre h e he
    have := h e he
    cases e <;> simp_all [Event.isResolution, Event.isUseOf, Event.isDeleteOf]
  cases c with
  | AllocateRaw alignment num_bytes =>
    by_cases hc : cfg.GOOGLE_CUDA = true
    · rcases dyload.target_cases cfg nat "cuMemAlloc" w self.stream_exec_.context with
        ⟨t1, pre, sv, -, ht, hpre⟩ | ⟨pre, sv, -, ht, hpre⟩
      · simp only [perform]
        rw [AllocateRaw_of_returned self cfg nat alignment num_bytes w t1 sv pre hc ht]
        simp only [Outcome.bind, Outcome.world]
        refine ⟨_, rfl, ?_⟩
        · intro e he
          simp only [List.mem_append, List.mem_cons] at he
          rcases he with he | rfl | he
          · exact hres (fun e he => Event.isResolution_of_isGetSymbol (hpre e he)) e he
          · simp [Event.isUseOf, Event.isDeleteOf]
          · split at he
            · simp at he
            · simp only [List.mem_singleton] at he
              subst he
              simp [Event.isUseOf, Event.isDeleteOf]
      · refine ⟨pre, ?_, hres hpre⟩
        simp only [perform]
        rw [AllocateRaw_of_aborted self cfg nat alignment num_bytes w _ hc ht]
        simp only [Outcome.bind, Outcome.world]
    · exact ⟨[], by simp [perform, AllocateRaw, hc, Outcome.bind, Outcome.world], by simp⟩
  | DeallocateRaw ptr =>
    by_cases hc : cfg.GOOGLE_CUDA = true
    · rcases dyload.target_cases cfg nat "cuMemFree" w w.ctx with
        ⟨t1, pre, sv, ht, -, hpre⟩ | ⟨pre, sv, ht, -, hpre⟩
      · simp only [perform]
        rw [DeallocateRaw_of_returned self cfg nat ptr w t1 sv pre hc ht]
        simp only [Outcome.bind, Outcome.world]
        refine ⟨_, rfl, ?_⟩
        · intro e he
          simp only [List.mem_append, List.mem_cons] at he
          rcases he with he | rfl | he
          · exact hres (fun e he => Event.isResolution_of_isGetSymbol (hpre e he)) e he
          · simp [Event.isUseOf, Event.isDeleteOf]
          · split at he
            · simp at he
            · simp only [List.mem_singleton] at he
              subst he
              simp [Event.isUseOf, Event.isDeleteOf]
      · refine ⟨pre, ?_, hres hpre⟩
        simp only [perform]
        rw [DeallocateRaw_of_aborted self cfg nat ptr w _ hc ht]
        simp only [Outcome.bind, Outcome.world]
    · exact ⟨[], by simp [perform, DeallocateRaw, hc, Outcome.bind, Outcome.world], by simp⟩
  | TracksAllocationSizes =>
    exact ⟨[], by simp [perform, TracksAllocationSizes, Outcome.bind, Outcome.world], by simp⟩

/-- A sequence of calls on the allocator records nothing that touches an `Allocator`
object. -/
theorem GPUcudaMallocAllocator.performAll_trace (self : GPUcudaMallocAllocator)
    (cfg : BuildConfig) (nat : Native) (b : AllocatorRef) (calls : List Call) (w : World) :
    ∃ pre, (self.performAll cfg nat calls w).world.trace = w.trace ++ pre ∧
      ∀ e ∈ pre, e.isUseOf b = false ∧ e.isDeleteOf b = false := by
  induction calls generalizing w with
  | nil => exact ⟨[], by simp [performAll, Outcome.world], by simp⟩
  | cons c cs ih =>
    obtain ⟨pre, htr, hpre⟩ := perform_trace self cfg nat b c w
    cases hp : self.perform cfg nat c w with
    | aborted w1 =>
      rw [hp] at htr
      exact ⟨pre, by simpa [performAll, hp, Outcome.bind, Outcome.world] using htr, hpre⟩
    | returned r w1 =>
      rw [hp] at htr
      simp only [Outcome.world] at htr
      obtain ⟨pre2, htr2, hpre2⟩ := ih w1
      refine ⟨pre ++ pre2, ?_, ?_⟩
      · simp only [performAll, hp, Outcome.bind]
        cases hq : self.performAll cfg nat cs w1 with
        | aborted w2 =>
          rw [hq] at htr2
          simp only [Outcome.world] at htr2 ⊢
          rw [htr2, htr, List.append_assoc]
        | returned rs w2 =>
          rw [hq] at htr2
          simp only [Outcome.world] at htr2 ⊢
          rw [htr2, htr, List.append_assoc]
      · intro e he
        rcases List.mem_append.mp he with he | he
        · exact hpre e he
        · exact hpre2 e he

/-- C9: for an allocator constructed with backing allocator `B` and any sequence of
`AllocateRaw`, `DeallocateRaw` and `TracksAllocationSizes` calls that comes back,
destroying the allocator comes back as well; over the whole run no operation of `B` is
invoked, and the run records exactly the events of the calls followed by one
`delete B`, which is the only deletion of `B`. -/
theorem backing_allocator_deleted_once_never_used (cfg : BuildConfig) (nat : Native)
    (B : AllocatorRef) (platform_gpu_id : Nat) (calls : List Call) (w w0 : World)
    (self : GPUcudaMallocAllocator)
    (hctor : construct nat (some B) platform_gpu_id w = .returned self w0)
    (hcalls : (self.performAll cfg nat calls w0).completes = true) :
    (lifecycle cfg nat (some B) platform_gpu_id calls w).completes = true ∧
    (lifecycle cfg nat (some B) platform_gpu_id calls w).value? =
      (self.performAll cfg nat calls w0).value? ∧
    (lifecycle cfg nat (some B) platform_gpu_id calls w).newEvents w =
      (self.performAll cfg nat calls w0).newEvents w0 ++ [Event.deleteAllocator B] ∧
    ((lifecycle cfg nat (some B) platform_gpu_id calls w).newEvents w).countP
        (Event.isUseOf B) = 0 ∧
    ((lifecycle cfg nat (some B) platform_gpu_id calls w).newEvents w).countP
        (Event.isDeleteOf B) = 1 ∧
    ((lifecycle cfg nat (some B) platform_gpu_id calls w).newEvents w).getLast? =
      some (Event.deleteAllocator B) := by
  cases hse : nat.ExecutorForPlatformGpuId platform_gpu_id with
  | none => simp [construct, ValueOrDie, hse, Outcome.bind] at hctor
  | some se =>
    simp only [construct, ValueOrDie, hse, Outcome.bind, Outcome.returned.injEq] at hctor
    obtain ⟨rfl, rfl⟩ := hctor
    obtain ⟨pre, htr, hpre⟩ := performAll_trace
      { base_allocator_ := some B, stream_exec_ := se } cfg nat B calls w
    have huse : pre.countP (Event.isUseOf B) = 0 := by
      rw [List.countP_eq_zero]
      intro e he
      simp [(hpre e he).1]
    have hdel : pre.countP (Event.isDeleteOf B) = 0 := by
      rw [List.countP_eq_zero]
      intro e he
      simp [(hpre e he).2]
    cases hp : performAll { base_allocator_ := some B, stream_exec_ := se } cfg nat calls w with
    | aborted w1 => simp [hp, Outcome.completes] at hcalls
    | returned rs w1 =>
      rw [hp] at htr
      simp only [Outcome.world] at htr
      simp [lifecycle, construct, ValueOrDie, hse, Outcome.bind, hp, destructor,
        Outcome.newEvents, Outcome.world, Outcome.completes, Outcome.value?, World.emit, htr,
        huse, hdel, List.countP_append, Event.isUseOf, Event.isDeleteOf]

/-- A witness for C9: an allocator over backing allocator 9, one allocation, one query
and one deallocation, then destruction. -/
theorem backing_allocator_deleted_once_never_used_witness :
    construct (demo.native true 0) (some 9) 0 demo.world =
      .returned demo.allocator demo.world ∧
    (demo.allocator.performAll demo.debugBuild (demo.native true 0)
      [.AllocateRaw 256 64, .TracksAllocationSizes, .DeallocateRaw 4096]
      demo.world).completes = true ∧
    (lifecycle demo.debugBuild (demo.native true 0) (some 9) 0
      [.AllocateRaw 256 64, .TracksAllocationSizes, .DeallocateRaw 4096]
      demo.world).completes = true ∧
    ((lifecycle demo.debugBuild (demo.native true 0) (some 9) 0
      [.AllocateRaw 256 64, .TracksAllocationSizes, .DeallocateRaw 4096]
      demo.world).newEvents demo.world).countP (Event.isUseOf 9) = 0 ∧
    ((lifecycle demo.debugBuild (demo.native true 0) (some 9) 0
      [.AllocateRaw 256 64, .TracksAllocationSizes, .DeallocateRaw 4096]
      demo.world).newEvents demo.world).countP (Event.isDeleteOf 9) = 1 ∧
    ((lifecycle demo.debugBuild (demo.native true 0) (some 9) 0
      [.AllocateRaw 256 64, .TracksAllocationSizes, .DeallocateRaw 4096]
      demo.world).newEvents demo.world).getLast? = some (Event.deleteAllocator 9) :=
  have h := backing_allocator_deleted_once_never_used demo.debugBuild (demo.native true 0) 9 0
    [.AllocateRaw 256 64, .TracksAllocationSizes, .DeallocateRaw 4096] demo.world demo.world
    demo.allocator rfl (by decide)
  ⟨rfl, by decide, h.1, h.2.2.2.1, h.2.2.2.2.1, h.2.2.2.2.2⟩

/-- In every run of the life cycle, also one that a fatal check cuts short, no operation
of the backing allocator is invoked, and it is deleted once when the run comes back and
not at all otherwise. -/
theorem lifecycle_backing_allocator_events (cfg : BuildConfig) (nat : Native)
    (B : AllocatorRef) (platform_gpu_id : Nat) (calls : List Call) (w : World) :
    ((lifecycle cfg nat (some B) platform_gpu_id calls w).newEvents w).countP
        (Event.isUseOf B) = 0 ∧
    ((lifecycle cfg nat (some B) platform_gpu_id calls w).newEvents w).countP
        (Event.isDeleteOf B) =
      (if (lifecycle cfg nat (some B) platform_gpu_id calls w).completes then 1 else 0) ∧
    ((lifecycle cfg nat (some B) platform_gpu_id calls w).completes = true →
      ((lifecycle cfg nat (some B) platform_gpu_id calls w).newEvents w).getLast? =
        some (Event.deleteAllocator B)) := by
  cases hse : nat.ExecutorForPlatformGpuId platform_gpu_id with
  | none =>
    simp [lifecycle, construct, ValueOrDie, hse, Outcome.bind, Outcome.newEvents,
      Outcome.world, Outcome.completes, World.emit, Event.isUseOf, Event.isDeleteOf]
  | some se =>
    obtain ⟨pre, htr, hpre⟩ := performAll_trace
      { base_allocator_ := some B, stream_exec_ := se } cfg nat B calls w
    have huse : pre.countP (Event.isUseOf B) = 0 := by
      rw [List.countP_eq_zero]
      intro e he
      simp [(hpre e he).1]
    have hdel : pre.countP (Event.isDeleteOf B) = 0 := by
      rw [List.countP_eq_zero]
      intro e he
      simp [(hpre e he).2]
    cases hp : performAll { base_allocator_ := some B, stream_exec_ := se } cfg nat calls w with
    | aborted w1 =>
      rw [hp] at htr
      simp only [Outcome.world] at htr
      simp [lifecycle, construct, ValueOrDie, hse, Outcome.bind, hp, Outcome.newEvents,
        Outcome.world, Outcome.completes, htr, huse, hdel]
    | returned rs w1 =>
      rw [hp] at htr
      simp only [Outcome.world] at htr
      simp [lifecycle, construct, ValueOrDie, hse, Outcome.bind, hp, destructor,
        Outcome.newEvents, Outcome.world, Outcome.completes, World.emit, htr, huse, hdel,
        List.countP_append, Event.isUseOf, Event.isDeleteOf]

/-- A run of the life cycle that reaches the destructor: one delete of the backing
allocator 9, at the end. -/
theorem lifecycle_example :
    (lifecycle demo.debugBuild (demo.native true 0) (some 9) 0
      [.AllocateRaw 256 64, .TracksAllocationSizes, .DeallocateRaw 4096]
      demo.world).value? = some [.pointer 4096, .flag false, .done] ∧
    ((lifecycle demo.debugBuild (demo.native true 0) (some 9) 0
      [.AllocateRaw 256 64, .TracksAllocationSizes, .DeallocateRaw 4096]
      demo.world).newEvents demo.world).filter (Event.isDeleteOf 9) =
        [Event.deleteAllocator 9] := by
  decide

/-! ## Lookup failure and the name looked up -/

/-- C5, at the failing inputs: in an `NDEBUG` build, the first call of an allocator shim
`dyload::name` that finds the library is never fatal, whatever the status of the lookup
of `name`: also after a failed lookup the shim calls through the address found in `f`
and returns to its caller. -/
theorem dyload_lookup_failure_not_fatal_under_NDEBUG (cfg : BuildConfig) (nat : Native)
    (name : String) (args : List Arg) (w : World) (h : DsoHandle)
    (hP : cfg.PLATFORM_GOOGLE = false) (hN : cfg.NDEBUG = true)
    (hs : w.statics (.dyload_f name) = none)
    (hh : nat.GetLibcudaDsoHandle = some h) :
    (dyload.STREAM_EXECUTOR_LIBCUDA_WRAP cfg nat name args w).completes = true ∧
    (dyload.STREAM_EXECUTOR_LIBCUDA_WRAP cfg nat name args w).newEvents w =
      [Event.getSymbol h (some name) (nat.GetSymbolFromLibrary w.trace h (some name)),
        Event.nativeCall (.address (nat.GetSymbolFromLibrary w.trace h (some name)).f) w.ctx
          args
          (nat.invoke
            (w.trace ++
              [Event.getSymbol h (some name) (nat.GetSymbolFromLibrary w.trace h (some name))])
            (.address (nat.GetSymbolFromLibrary w.trace h (some name)).f) w.ctx args)] := by
  simp [dyload.STREAM_EXECUTOR_LIBCUDA_WRAP, dyload.target, dyload.DynLoad,
    dyload.LoadOrDie, dyload.GetDsoHandle, ValueOrDie, CHECK, DCHECK, Outcome.bind, callNative,
    Outcome.completes, Outcome.newEvents, Outcome.world, World.emit, World.setStatic, hP, hN,
    hs, hh]

/-- The failing input of C5 evaluated: `dyload::cuMemAlloc(&rv, 1 << 30)` on a fresh
process, with a lookup that fails and leaves 57005 in `f`. -/
theorem dyload_lookup_failure_not_fatal_under_NDEBUG_witness :
    demo.releaseBuild.PLATFORM_GOOGLE = false ∧
    demo.releaseBuild.NDEBUG = true ∧
    demo.world.statics (.dyload_f "cuMemAlloc") = none ∧
    (demo.native false 0).GetLibcudaDsoHandle = some 1 ∧
    ((demo.native false 0).GetSymbolFromLibrary demo.world.trace 1 (some "cuMemAlloc")).ok =
      false ∧
    (dyload.STREAM_EXECUTOR_LIBCUDA_WRAP demo.releaseBuild (demo.native false 0) "cuMemAlloc"
      demo.allocArgs demo.world).completes = true ∧
    (dyload.STREAM_EXECUTOR_LIBCUDA_WRAP demo.releaseBuild (demo.native false 0) "cuMemAlloc"
      demo.allocArgs demo.world).newEvents demo.world =
      [Event.getSymbol 1 (some "cuMemAlloc")
          { ok := false, f := 57005, error_message := "undefined symbol" },
        Event.nativeCall (.address 57005) 1 demo.allocArgs { ret := 0, stored := some 4096 }] :=
  ⟨by decide, by decide, by decide, by decide, by decide,
    dyload_lookup_failure_not_fatal_under_NDEBUG demo.releaseBuild (demo.native false 0)
      "cuMemAlloc" demo.allocArgs demo.world 1 (by decide) (by decide) (by decide)
      (by decide)⟩

/-- With the checks in force (any proxy of the two headers, or the allocator's shims in a
build without `NDEBUG`), a failed first lookup terminates the process: the proxy does
not return, and no native call is made. -/
theorem lookup_failure_fatal_when_checked (cfg : BuildConfig) (nat : Native) (p : Proxy)
    (args : List Arg) (w : World) (h : DsoHandle)
    (hP : cfg.PLATFORM_GOOGLE = false)
    (hchk : cfg.NDEBUG = false ∨ ∀ n, p ≠ .dyload n)
    (hs : w.statics (p.staticVar args) = none)
    (hh : p.dsoHandle nat = some h)
    (hfail : (nat.GetSymbolFromLibrary w.trace h p.kName).ok = false) :
    (p.call cfg nat args w).completes = false ∧
    ((p.call cfg nat args w).newEvents w).filter Event.isNativeCall = [] := by
  cases p with
  | dyload n =>
    have hN : cfg.NDEBUG = false := by
      rcases hchk with h1 | h2
      · exact h1
      · exact absurd rfl (h2 n)
    simp only [Proxy.staticVar, Proxy.dsoHandle, Proxy.kName] at hs hh hfail
    simp [Proxy.call, dyload.STREAM_EXECUTOR_LIBCUDA_WRAP, dyload.target, dyload.DynLoad,
      dyload.LoadOrDie, dyload.GetDsoHandle, ValueOrDie, CHECK, DCHECK, Outcome.bind,
      Outcome.completes,
      Outcome.newEvents, Outcome.world, World.emit, hP, hs, hh, hfail, hN, Event.isNativeCall]
  | cuda n =>
    simp only [Proxy.staticVar, Proxy.dsoHandle, Proxy.kName] at hs hh hfail
    simp [Proxy.call, wrap.STREAM_EXECUTOR_LIBCUDA_WRAP, wrap.GetDsoHandle, ValueOrDie, CHECK,
      DCHECK,
      Outcome.bind, Outcome.completes, Outcome.newEvents, Outcome.world, World.emit, hP, hs,
      hh, hfail, Event.isNativeCall]
  | cudart n =>
    simp only [Proxy.staticVar, Proxy.dsoHandle, Proxy.kName] at hs hh hfail
    simp [Proxy.call, wrap.STREAM_EXECUTOR_LIBCUDART_WRAP, ValueOrDie, CHECK, DCHECK,
      Outcome.bind, Outcome.completes, Outcome.newEvents, Outcome.world, World.emit, hP, hs,
      hh, hfail, Event.isNativeCall]

/-- C6, at the failing inputs: for every entry point name `E` (so for each of the driver
set), the first invocation of the lazy-dynamic proxy `wrap::E` of
`cuda_driver_wrapper.h` passes a null name, not the name of `E`, to the symbol lookup. -/
theorem wrap_cuda_first_lookup_passes_null_name (cfg : BuildConfig) (nat : Native)
    (E : String) (args : List Arg) (w : World) (h : DsoHandle)
    (hP : cfg.PLATFORM_GOOGLE = false)
    (hs : w.statics (.cuda_loaded E (args.map Arg.ctype)) = none)
    (hh : nat.GetLibcudaDsoHandle = some h) :
    ((wrap.STREAM_EXECUTOR_LIBCUDA_WRAP cfg nat E args w).newEvents w).head? =
      some (Event.getSymbol h none (nat.GetSymbolFromLibrary w.trace h none)) := by
  by_cases hok : (nat.GetSymbolFromLibrary w.trace h none).ok = true
  · simp [wrap.STREAM_EXECUTOR_LIBCUDA_WRAP, wrap.GetDsoHandle, ValueOrDie, CHECK, DCHECK,
    Outcome.bind,
      callNative, Outcome.newEvents, Outcome.world, World.emit, World.setStatic, hP, hs, hh, hok]
  · simp [wrap.STREAM_EXECUTOR_LIBCUDA_WRAP, wrap.GetDsoHandle, ValueOrDie, CHECK, DCHECK,
    Outcome.bind,
      callNative, Outcome.newEvents, Outcome.world, World.emit, World.setStatic, hP, hs, hh, hok]

/-- The failing input of C6 evaluated: the first call of `wrap::cuMemAlloc`. -/
theorem wrap_cuda_first_lookup_passes_null_name_witness :
    demo.debugBuild.PLATFORM_GOOGLE = false ∧
    demo.world.statics (.cuda_loaded "cuMemAlloc" (demo.allocArgs.map Arg.ctype)) = none ∧
    (demo.native true 0).GetLibcudaDsoHandle = some 1 ∧
    ((wrap.STREAM_EXECUTOR_LIBCUDA_WRAP demo.debugBuild (demo.native true 0) "cuMemAlloc"
        demo.allocArgs demo.world).newEvents demo.world).head? =
      some (Event.getSymbol 1 none
        ((demo.native true 0).GetSymbolFromLibrary demo.world.trace 1 none)) :=
  ⟨by decide, by decide, by decide,
    wrap_cuda_first_lookup_passes_null_name demo.debugBuild (demo.native true 0) "cuMemAlloc"
      demo.allocArgs demo.world 1 (by decide) (by decide) (by decide)⟩

/-- The proxies of `cuda_runtime_wrapper.h` and the allocator's shims do pass the
entry point's own name, against the handle of their own library. -/
theorem first_lookup_passes_canonical_name (cfg : BuildConfig) (nat : Native) (p : Proxy)
    (args : List Arg) (w : World) (h : DsoHandle)
    (hp : ∀ n, p ≠ .cuda n)
    (hP : cfg.PLATFORM_GOOGLE = false)
    (hs : w.statics (p.staticVar args) = none)
    (hh : p.dsoHandle nat = some h) :
    ((p.call cfg nat args w).newEvents w).head? =
      some (Event.getSymbol h (some p.name)
        (nat.GetSymbolFromLibrary w.trace h (some p.name))) := by
  cases p with
  | dyload n =>
    simp only [Proxy.staticVar, Proxy.dsoHandle] at hs hh
    by_cases hN : cfg.NDEBUG = true <;>
      by_cases hok : (nat.GetSymbolFromLibrary w.trace h (some n)).ok = true <;>
      simp [Proxy.call, Proxy.name, dyload.STREAM_EXECUTOR_LIBCUDA_WRAP, dyload.target,
        dyload.DynLoad, dyload.LoadOrDie, dyload.GetDsoHandle, ValueOrDie, CHECK, DCHECK,
        Outcome.bind, callNative, Outcome.newEvents, Outcome.world, World.emit,
        World.setStatic, hP, hs, hh, hN, hok]
  | cuda n => exact absurd rfl (hp n)
  | cudart n =>
    simp only [Proxy.staticVar, Proxy.dsoHandle] at hs hh
    by_cases hok : (nat.GetSymbolFromLibrary w.trace h (some n)).ok = true
    · simp [Proxy.call, Proxy.name, wrap.STREAM_EXECUTOR_LIBCUDART_WRAP, ValueOrDie, CHECK, DCHECK,
        Outcome.bind, callNative, Outcome.newEvents, Outcome.world, World.emit,
        World.setStatic, hP, hs, hh, hok]
    · simp [Proxy.call, Proxy.name, wrap.STREAM_EXECUTOR_LIBCUDART_WRAP, ValueOrDie, CHECK, DCHECK,
        Outcome.bind, callNative, Outcome.newEvents, Outcome.world, World.emit,
        World.setStatic, hP, hs, hh, hok]

/-! ## Caching of the resolved pointer -/

/-- An invocation that finds its static initialised calls through the cached pointer and
does nothing else. -/
theorem Proxy.call_cached (cfg : BuildConfig) (nat : Native) (p : Proxy) (args : List Arg)
    (w : World) (f : FuncAddr) (hP : cfg.PLATFORM_GOOGLE = false)
    (hs : w.statics (p.staticVar args) = some f) :
    p.call cfg nat args w = callNative nat (.address f) args w := by
  cases p with
  | dyload n =>
    simp only [Proxy.staticVar] at hs
    simp [Proxy.call, dyload.STREAM_EXECUTOR_LIBCUDA_WRAP, dyload.target, dyload.DynLoad,
      Outcome.bind, hP, hs]
  | cuda n =>
    simp only [Proxy.staticVar] at hs
    simp [Proxy.call, wrap.STREAM_EXECUTOR_LIBCUDA_WRAP, Outcome.bind, hP, hs]
  | cudart n =>
    simp only [Proxy.staticVar] at hs
    simp [Proxy.call, wrap.STREAM_EXECUTOR_LIBCUDART_WRAP, Outcome.bind, hP, hs]

/-- A first invocation whose lookup succeeds records the lookup, initialises the static
with the pointer found, and calls through that pointer. -/
theorem Proxy.call_first (cfg : BuildConfig) (nat : Native) (p : Proxy) (args : List Arg)
    (w : World) (h : DsoHandle) (hP : cfg.PLATFORM_GOOGLE = false)
    (hs : w.statics (p.staticVar args) = none)
    (hh : p.dsoHandle nat = some h)
    (hok : (nat.GetSymbolFromLibrary w.trace h p.kName).ok = true) :
    p.call cfg nat args w =
      callNative nat (.address (nat.GetSymbolFromLibrary w.trace h p.kName).f) args
        ((w.emit (.getSymbol h p.kName (nat.GetSymbolFromLibrary w.trace h p.kName))).setStatic
          (p.staticVar args) (nat.GetSymbolFromLibrary w.trace h p.kName).f) := by
  cases p with
  | dyload n =>
    simp only [Proxy.staticVar, Proxy.dsoHandle, Proxy.kName] at hs hh hok ⊢
    simp [Proxy.call, dyload.STREAM_EXECUTOR_LIBCUDA_WRAP, dyload.target, dyload.DynLoad,
      dyload.LoadOrDie, dyload.GetDsoHandle, ValueOrDie, CHECK, DCHECK, Outcome.bind, World.emit,
      hP, hs,
      hh, hok]
  | cuda n =>
    simp only [Proxy.staticVar, Proxy.dsoHandle, Proxy.kName] at hs hh hok ⊢
    simp [Proxy.call, wrap.STREAM_EXECUTOR_LIBCUDA_WRAP, wrap.GetDsoHandle, ValueOrDie, CHECK,
      DCHECK,
      Outcome.bind, World.emit, hP, hs, hh, hok]
  | cudart n =>
    simp only [Proxy.staticVar, Proxy.dsoHandle, Proxy.kName] at hs hh hok ⊢
    simp [Proxy.call, wrap.STREAM_EXECUTOR_LIBCUDART_WRAP, ValueOrDie, CHECK, DCHECK,
      Outcome.bind, World.emit, hP, hs, hh, hok]

/-- Invocations that all find the pointer `f` cached are direct calls of the code at
`f`. -/
theorem Proxy.callAll_cached (cfg : BuildConfig) (nat : Native) (p : Proxy) (f : FuncAddr)
    (hP : cfg.PLATFORM_GOOGLE = false) (argss : List (List Arg)) (w : World)
    (hs : ∀ a ∈ argss, w.statics (p.staticVar a) = some f) :
    p.callAll cfg nat argss w =
      .returned (callDirectly nat (.address f) w.ctx w.trace argss).1
        { w with trace := (callDirectly nat (.address f) w.ctx w.trace argss).2 } := by
  induction argss generalizing w with
  | nil => simp [Proxy.callAll, callDirectly]
  | cons a rest ih =>
    have h1 := Proxy.call_cached cfg nat p a w f hP (hs a (List.mem_cons_self _ _))
    have h2 := ih (w.emit (.nativeCall (.address f) w.ctx a
        (nat.invoke w.trace (.address f) w.ctx a)))
      (fun b hb => by simpa [World.emit] using hs b (List.mem_cons_of_mem _ hb))
    simp only [Proxy.callAll, h1, callNative, Outcome.bind, h2, callDirectly]
    simp [World.emit]

/-- The record after direct calls is the record before, followed by one native call per
argument list, each to the same target under the same context. -/
theorem callDirectly_trace (nat : Native) (t : Target) (ctx : CUcontext)
    (argss : List (List Arg)) (tr : List Event) :
    ∃ calls, (callDirectly nat t ctx tr argss).2 = tr ++ calls ∧
      calls.length = argss.length ∧
      ∀ e ∈ calls, ∃ a r, e = Event.nativeCall t ctx a r := by
  induction argss generalizing tr with
  | nil => exact ⟨[], by simp [callDirectly], rfl, by simp⟩
  | cons a rest ih =>
    obtain ⟨calls, h1, h2, h3⟩ := ih (tr ++ [.nativeCall t ctx a (nat.invoke tr t ctx a)])
    refine ⟨.nativeCall t ctx a (nat.invoke tr t ctx a) :: calls, ?_, by simp [h2], ?_⟩
    · simp [callDirectly, h1]
    · intro e he
      rcases List.mem_cons.mp he with rfl | he
      · exact ⟨_, _, rfl⟩
      · exact h3 e he

/-- C7, refuted as stated: two sequential invocations of the driver-wrapper proxy
`wrap::cuMemAlloc`, the first with a `size_t` size and the second with an `int` size,
both come back, the first lookup succeeds, and the symbol lookup runs twice. -/
theorem wrap_cuda_resolves_again_for_other_argument_types :
    ((Proxy.cuda "cuMemAlloc").callAll demo.debugBuild (demo.native true 0)
      [demo.allocArgs, demo.allocArgsInt] demo.world).completes = true ∧
    ((demo.native true 0).GetSymbolFromLibrary demo.world.trace 1
      (Proxy.cuda "cuMemAlloc").kName).ok = true ∧
    (((Proxy.cuda "cuMemAlloc").callAll demo.debugBuild (demo.native true 0)
      [demo.allocArgs, demo.allocArgsInt] demo.world).newEvents demo.world).countP
        Event.isGetSymbol = 2 := by
  decide

/-- C7, amended: for every lazy-dynamic proxy and every sequence of one or more
sequential invocations that share the static of the first one (any invocations of an
allocator shim; invocations with the same argument types for the two header wrappers),
if the static is not yet initialised and the first lookup succeeds with pointer `f`,
then all invocations return, their results and the record are those of calling the code
at `f` directly once per invocation after a single lookup, the symbol lookup runs
exactly once, and every native call goes to `f`. -/
theorem lazy_proxy_resolves_once_per_static (cfg : BuildConfig) (nat : Native) (p : Proxy)
    (a0 : List Arg) (rest : List (List Arg)) (w : World) (h : DsoHandle)
    (hP : cfg.PLATFORM_GOOGLE = false)
    (hsame : ∀ a ∈ rest, p.staticVar a = p.staticVar a0)
    (hs : w.statics (p.staticVar a0) = none)
    (hh : p.dsoHandle nat = some h)
    (hok : (nat.GetSymbolFromLibrary w.trace h p.kName).ok = true) :
    (p.callAll cfg nat (a0 :: rest) w).value? =
      some (callDirectly nat (.address (nat.GetSymbolFromLibrary w.trace h p.kName).f) w.ctx
        (w.trace ++ [.getSymbol h p.kName (nat.GetSymbolFromLibrary w.trace h p.kName)])
        (a0 :: rest)).1 ∧
    (p.callAll cfg nat (a0 :: rest) w).world.trace =
      (callDirectly nat (.address (nat.GetSymbolFromLibrary w.trace h p.kName).f) w.ctx
        (w.trace ++ [.getSymbol h p.kName (nat.GetSymbolFromLibrary w.trace h p.kName)])
        (a0 :: rest)).2 ∧
    ((p.callAll cfg nat (a0 :: rest) w).newEvents w).countP Event.isGetSymbol = 1 ∧
    ((p.callAll cfg nat (a0 :: rest) w).newEvents w).countP Event.isNativeCall =
      (a0 :: rest).length ∧
    ∀ t c a r, Event.nativeCall t c a r ∈ (p.callAll cfg nat (a0 :: rest) w).newEvents w →
      t = .address (nat.GetSymbolFromLibrary w.trace h p.kName).f := by
  have h1 := Proxy.call_first cfg nat p a0 w h hP hs hh hok
  generalize hS : nat.GetSymbolFromLibrary w.trace h p.kName = S at h1 ⊢
  have h2 := Proxy.callAll_cached cfg nat p S.f hP rest
    (((w.emit (.getSymbol h p.kName S)).setStatic (p.staticVar a0) S.f).emit
      (.nativeCall (.address S.f) w.ctx a0
        (nat.invoke (w.trace ++ [.getSymbol h p.kName S]) (.address S.f) w.ctx a0)))
    (fun a ha => by simp [World.emit, World.setStatic, hsame a ha])
  have hrun : p.callAll cfg nat (a0 :: rest) w =
      .returned
        (callDirectly nat (.address S.f) w.ctx (w.trace ++ [.getSymbol h p.kName S])
          (a0 :: rest)).1
        { ctx := w.ctx,
          statics := fun k => if k = p.staticVar a0 then some S.f else w.statics k,
          trace := (callDirectly nat (.address S.f) w.ctx
            (w.trace ++ [.getSymbol h p.kName S]) (a0 :: rest)).2 } := by
    simp only [Proxy.callAll, h1, callNative, Outcome.bind]
    simp only [World.emit, World.setStatic] at h2 ⊢
    rw [h2]
    simp [callDirectly]
  obtain ⟨calls, hc1, hc2, hc3⟩ := callDirectly_trace nat (.address S.f) w.ctx (a0 :: rest)
    (w.trace ++ [.getSymbol h p.kName S])
  have hnew : (p.callAll cfg nat (a0 :: rest) w).newEvents w =
      .getSymbol h p.kName S :: calls := by
    rw [hrun]
    simp [Outcome.newEvents, Outcome.world, hc1]
  have hget : calls.countP Event.isGetSymbol = 0 := by
    rw [List.countP_eq_zero]
    intro e he
    obtain ⟨a, r, rfl⟩ := hc3 e he
    simp [Event.isGetSymbol]
  have hnat : calls.countP Event.isNativeCall = calls.length := by
    rw [List.countP_eq_length]
    intro e he
    obtain ⟨a, r, rfl⟩ := hc3 e he
    simp [Event.isNativeCall]
  refine ⟨by rw [hrun]; rfl, by rw [hrun]; rfl, ?_, ?_, ?_⟩
  · rw [hnew]
    simp [List.countP_cons, Event.isGetSymbol, hget]
  · rw [hnew]
    simp [List.countP_cons, Event.isNativeCall, hnat, hc2]
  · intro t c a r hmem
    rw [hnew] at hmem
    rcases List.mem_cons.mp hmem with heq | hmem
    · cases heq
    · obtain ⟨a', r', heq⟩ := hc3 _ hmem
      cases heq
      rfl

/-- A witness for the amended C7: three invocations of the runtime-wrapper proxy
`wrap::cudaFree` on a fresh process. -/
theorem lazy_proxy_resolves_once_per_static_witness :
    demo.debugBuild.PLATFORM_GOOGLE = false ∧
    (∀ a ∈ [[Arg.byValue .voidPtr 4096], [Arg.byValue .voidPtr 8192]],
      (Proxy.cudart "cudaFree").staticVar a =
        (Proxy.cudart "cudaFree").staticVar [Arg.byValue .voidPtr 0]) ∧
    demo.world.statics ((Proxy.cudart "cudaFree").staticVar [Arg.byValue .voidPtr 0]) = none ∧
    (Proxy.cudart "cudaFree").dsoHandle (demo.native true 0) = some 2 ∧
    ((demo.native true 0).GetSymbolFromLibrary demo.world.trace 2
      (Proxy.cudart "cudaFree").kName).ok = true ∧
    (((Proxy.cudart "cudaFree").callAll demo.debugBuild (demo.native true 0)
      ([Arg.byValue .voidPtr 0] :: [[Arg.byValue .voidPtr 4096], [Arg.byValue .voidPtr 8192]])
      demo.world).newEvents demo.world).countP Event.isGetSymbol = 1 :=
  ⟨by decide, by decide, by decide, by decide, by decide,
    (lazy_proxy_resolves_once_per_static demo.debugBuild (demo.native true 0)
      (Proxy.cudart "cudaFree") [Arg.byValue .voidPtr 0]
      [[Arg.byValue .voidPtr 4096], [Arg.byValue .voidPtr 8192]] demo.world 2
      (by decide) (by decide) (by decide) (by decide) (by decide)).2.2.1⟩

end tensorflow
